import Mathlib

/-!
Verification development for the connection-lifecycle and service-supervisor
substrate of the psiphon tunnel server (psiphon/net.go and
psiphon/server/services.go). Each Go component is shallowly embedded as an
executable Lean definition that mirrors the source control flow; connection
handles are represented by natural-number identifiers, machine integers by
Int, and side effects (close calls, file-system operations, deadline updates)
by explicit effect records. Goroutine-level nondeterminism is represented by
explicit event traces where a claim requires it.
-/

/-! ## Connection registry (psiphon/net.go, type Conns, lines 188-228)

The Go struct holds a mutex, an isClosed flag and a map from net.Conn to
bool used as a set. The mutex serialises the operations, so the embedding is
a sequential state machine; the map is modelled as a duplicate-free list of
connection identifiers. -/

structure Conns where
  isClosed : Bool
  conns : List Nat
deriving DecidableEq

/-- Reset (net.go 194-199): clears the closed flag and empties the map. -/
def Conns.Reset (_ : Conns) : Conns :=
  { isClosed := false, conns := [] }

/-- Add (net.go 201-212): returns false and leaves the state unchanged when
the registry is closed; otherwise inserts the connection into the map (a
repeated insert is idempotent, as for a Go map key) and returns true. -/
def Conns.Add (s : Conns) (c : Nat) : Conns × Bool :=
  if s.isClosed then (s, false)
  else ({ s with conns := if s.conns.contains c then s.conns else c :: s.conns }, true)

/-- Remove (net.go 214-218): deletes the connection from the map. -/
def Conns.Remove (s : Conns) (c : Nat) : Conns :=
  { s with conns := s.conns.filter (fun x => x != c) }

/-- CloseAll (net.go 220-228): sets the closed flag, invokes Close on every
registered connection (returned as the list of closed handles) and replaces
the map with a fresh empty one. -/
def Conns.CloseAll (s : Conns) : Conns × List Nat :=
  ({ isClosed := true, conns := [] }, s.conns)

/-- One operation against a Conns registry, for reasoning about sequences of
calls (the mutex makes any interleaving equivalent to some sequence). -/
inductive ConnsOp
  | add (c : Nat)
  | remove (c : Nat)
  | closeAll
  | reset
deriving DecidableEq

/-- Apply one operation; also report the Add return value (when the
operation is an add) and the handles on which the operation invoked Close. -/
def Conns.applyOp (s : Conns) : ConnsOp → Conns × Option Bool × List Nat
  | ConnsOp.add c => ((Conns.Add s c).1, some (Conns.Add s c).2, [])
  | ConnsOp.remove c => (Conns.Remove s c, none, [])
  | ConnsOp.closeAll => ((Conns.CloseAll s).1, none, (Conns.CloseAll s).2)
  | ConnsOp.reset => (Conns.Reset s, none, [])

/-- Run a sequence of registry operations. -/
def Conns.runOps (s : Conns) : List ConnsOp → Conns
  | [] => s
  | op :: ops => Conns.runOps (Conns.applyOp s op).1 ops

/-! ## LRU connection set (psiphon/net.go, type LRUConns, lines 244-314)

The doubly-linked list is modelled as a Lean list whose head is the front
(freshest) element and whose last element is the back (oldest). CloseOldest
(net.go 270-282) reads list.Back() and then evaluates the type assertion
oldest.Value.(net.Conn) BEFORE the nil check on oldest; when the list is
empty, Back() returns nil and that field access is a nil-pointer
dereference, i.e. a runtime panic. The embedding returns none for that
runtime fault and some (state, closed handle) for a normal return. -/

structure LRUConns where
  list : List Nat
deriving DecidableEq

/-- NewLRUConns (net.go 250-252): a fresh empty list. -/
def NewLRUConns : LRUConns :=
  { list := [] }

/-- Add (net.go 258-265): PushFront inserts the connection as the freshest
element. -/
def LRUConns.Add (s : LRUConns) (c : Nat) : LRUConns :=
  { list := c :: s.list }

/-- CloseOldest (net.go 270-282). The source reads oldest := list.Back(),
then evaluates the type assertion oldest.Value.(net.Conn) before testing
oldest != nil: on an empty list oldest is nil and the Value access faults
(none). On a non-empty list the back element is removed and Close is
invoked on its connection, returned as the second component. -/
def LRUConns.CloseOldest (s : LRUConns) : Option (LRUConns × Nat) :=
  match s.list.getLast? with
  | none => none
  | some c => some ({ list := s.list.dropLast }, c)

/-! ## Throttled connection (psiphon/net.go, type ThrottledConn, lines 841-915)

NewThrottledConn (852-887) selects, per direction, the reader/writer used
once past the unmetered budget: the raw wrapped conn when the configured
rate is 0, a token-bucket rate limiter otherwise. Read (889-901) and Write
(903-915) check the limiting flag; while it is 0 they subtract len(buffer)
from the unmetered counter and, when the counter stays positive, recurse
into the SAME method (conn.Read / conn.Write, not conn.Conn.Read), which
subtracts again. All I/O exits go through limitedReader / limitedWriter.
The recursion is modelled with explicit fuel; none means the call has not
returned within the given fuel. -/

inductive ReaderKind
  | rawConn
  | rateLimiter
deriving DecidableEq

structure ThrottledConn where
  unlimitedReadBytes : Int
  limitingReads : Bool
  limitedReader : ReaderKind
  unlimitedWriteBytes : Int
  limitingWrites : Bool
  limitedWriter : ReaderKind
deriving DecidableEq

/-- NewThrottledConn (net.go 852-887): rate 0 selects the raw wrapped conn
as the limited reader/writer, a positive rate selects the token bucket; the
limiting flags start at 0. -/
def NewThrottledConn (unlimitedReadBytes limitReadBytesPerSecond
    unlimitedWriteBytes limitWriteBytesPerSecond : Int) : ThrottledConn :=
  { unlimitedReadBytes := unlimitedReadBytes
    limitingReads := false
    limitedReader := if limitReadBytesPerSecond = 0 then ReaderKind.rawConn else ReaderKind.rateLimiter
    unlimitedWriteBytes := unlimitedWriteBytes
    limitingWrites := false
    limitedWriter := if limitWriteBytesPerSecond = 0 then ReaderKind.rawConn else ReaderKind.rateLimiter }

/-- Read (net.go 889-901) on a buffer of lenBuffer bytes. While
limitingReads is 0: atomically add -lenBuffer to unlimitedReadBytes; if the
result is <= 0 set limitingReads to 1 and fall through, otherwise recurse
into ThrottledConn.Read itself. Every return performs the I/O through
limitedReader, reported as the second component. -/
def ThrottledConn.Read : Nat → ThrottledConn → Nat → Option (ThrottledConn × ReaderKind)
  | 0, _, _ => none
  | fuel + 1, conn, lenBuffer =>
    if conn.limitingReads = false then
      let newCount := conn.unlimitedReadBytes - (lenBuffer : Int)
      if newCount ≤ 0 then
        some ({ conn with unlimitedReadBytes := newCount, limitingReads := true },
          conn.limitedReader)
      else
        ThrottledConn.Read fuel { conn with unlimitedReadBytes := newCount } lenBuffer
    else
      some (conn, conn.limitedReader)

/-- Write (net.go 903-915): symmetric to Read on the write-direction
fields. -/
def ThrottledConn.Write : Nat → ThrottledConn → Nat → Option (ThrottledConn × ReaderKind)
  | 0, _, _ => none
  | fuel + 1, conn, lenBuffer =>
    if conn.limitingWrites = false then
      let newCount := conn.unlimitedWriteBytes - (lenBuffer : Int)
      if newCount ≤ 0 then
        some ({ conn with unlimitedWriteBytes := newCount, limitingWrites := true },
          conn.limitedWriter)
      else
        ThrottledConn.Write fuel { conn with unlimitedWriteBytes := newCount } lenBuffer
    else
      some (conn, conn.limitedWriter)

/-- Run a sequence of Read calls (one buffer length per call), collecting
the reader that performed the I/O of each call. -/
def ThrottledConn.runReads (fuel : Nat) : ThrottledConn → List Nat → Option (ThrottledConn × List ReaderKind)
  | conn, [] => some (conn, [])
  | conn, n :: ns =>
    match ThrottledConn.Read fuel conn n with
    | none => none
    | some (c2, k) =>
      match ThrottledConn.runReads fuel c2 ns with
      | none => none
      | some (c3, ks) => some (c3, k :: ks)

/-- Run a sequence of Write calls, collecting the writer used by each. -/
def ThrottledConn.runWrites (fuel : Nat) : ThrottledConn → List Nat → Option (ThrottledConn × List ReaderKind)
  | conn, [] => some (conn, [])
  | conn, n :: ns =>
    match ThrottledConn.Write fuel conn n with
    | none => none
    | some (c2, k) =>
      match ThrottledConn.runWrites fuel c2 ns with
      | none => none
      | some (c3, ks) => some (c3, k :: ks)

/-! ## Activity-monitored connection (psiphon/net.go, lines 753-832)

Times are modelled as Int nanoseconds. The wrapped Read/Write result is
supplied as (byte count, error flag); the effects on the wrapped connection
are reported in an explicit record: readDeadlineSet = some t means
SetReadDeadline(t) was invoked during the call, none means it was not;
lruTouched reports whether lruEntry.Touch() was invoked. -/

structure ActivityMonitoredConn where
  inactivityTimeout : Int
  activeOnWrite : Bool
  startTime : Int
  lastActivityTime : Int
  hasLruEntry : Bool
deriving DecidableEq

structure ActivityEffects where
  readDeadlineSet : Option Int
  lruTouched : Bool
deriving DecidableEq

structure ActivityOutcome where
  conn : ActivityMonitoredConn
  bytes : Nat
  isErr : Bool
  fx : ActivityEffects
deriving DecidableEq

/-- Read (net.go 797-812): on success store now into lastActivityTime, set
the read deadline to now + inactivityTimeout when the timeout is positive,
and touch the LRU entry when present; on error change nothing. -/
def ActivityMonitoredConn.Read (conn : ActivityMonitoredConn) (now : Int) (n : Nat)
    (rErr : Bool) : ActivityOutcome :=
  if rErr then
    { conn := conn, bytes := n, isErr := true, fx := { readDeadlineSet := none, lruTouched := false } }
  else
    { conn := { conn with lastActivityTime := now }
      bytes := n
      isErr := false
      fx := { readDeadlineSet :=
                if 0 < conn.inactivityTimeout then some (now + conn.inactivityTimeout) else none
              lruTouched := conn.hasLruEntry } }

/-- Write (net.go 814-832): on success the activity-time store and deadline
reset happen only under the activeOnWrite flag, while the LRU touch happens
whenever an entry is present; on error change nothing. -/
def ActivityMonitoredConn.Write (conn : ActivityMonitoredConn) (now : Int) (n : Nat)
    (wErr : Bool) : ActivityOutcome :=
  if wErr then
    { conn := conn, bytes := n, isErr := true, fx := { readDeadlineSet := none, lruTouched := false } }
  else
    { conn := if conn.activeOnWrite then { conn with lastActivityTime := now } else conn
      bytes := n
      isErr := false
      fx := { readDeadlineSet :=
                if conn.activeOnWrite ∧ 0 < conn.inactivityTimeout then
                  some (now + conn.inactivityTimeout)
                else none
              lruTouched := conn.hasLruEntry } }

/-! ## Resumable download (psiphon/net.go, ResumeDownload, lines 551-694)

The function is embedded as a pure function of an environment that resolves
each external interaction in source order: the OpenFile and Stat results,
the size of the partial file, the ReadFile of the stored partial ETag, the
request construction, the HTTP round trip, the io.Copy into the partial
file, the file Close, and the Rename. File-system side effects are reported
in an explicit record. -/

structure HttpRequest where
  rangeHeader : String
  ifMatch : Option String
  ifNoneMatch : Option String
deriving DecidableEq

structure DownloadEnv where
  openErr : Bool
  statErr : Bool
  size : Nat
  etagReadErr : Bool
  etagContents : String
  newRequestErr : Bool
  doErr : Bool
  statusCode : Nat
  responseETag : String
  copyN : Nat
  copyErr : Bool
  closeErr : Bool
  renameErr : Bool
deriving DecidableEq

structure FsEffects where
  removedPart : Bool
  removedPartETag : Bool
  wrotePartETag : Option String
  bytesCopied : Nat
  removedTarget : Bool
  renamed : Bool
deriving DecidableEq

structure DownloadRun where
  request : Option HttpRequest
  n : Int
  etag : String
  isErr : Bool
  fx : FsEffects
deriving DecidableEq

/-- No file-system effect has occurred. -/
def noFx : FsEffects :=
  { removedPart := false, removedPartETag := false, wrotePartETag := none,
    bytesCopied := 0, removedTarget := false, renamed := false }

/-- Request construction (net.go 592-622): the Range header bytes=S- is
always added; If-Match with the stored partial ETag is added when the
partial ETag was loaded, else If-None-Match when the caller supplied a
non-empty hint. -/
def buildResumeRequest (size : Nat) (partETag : Option String)
    (ifNoneMatchETag : String) : HttpRequest :=
  match partETag with
  | some e =>
    { rangeHeader := "bytes=" ++ toString size ++ "-", ifMatch := some e, ifNoneMatch := none }
  | none =>
    { rangeHeader := "bytes=" ++ toString size ++ "-", ifMatch := none,
      ifNoneMatch := if ifNoneMatchETag ≠ "" then some ifNoneMatchETag else none }

/-- File-system effects of the 412 and 304 branches and of the failed
partial-ETag read (net.go 584-589, 645-658): both artifacts removed. -/
def removeBothFx : FsEffects :=
  { removedPart := true, removedPartETag := true, wrotePartETag := none,
    bytesCopied := 0, removedTarget := false, renamed := false }

/-- File-system effects once the 206/416 path has written the response
ETag beside the partial file and copied copyN body bytes into it
(net.go 663-667). -/
def copyFx (env : DownloadEnv) : FsEffects :=
  { removedPart := false, removedPartETag := false,
    wrotePartETag := some env.responseETag, bytesCopied := env.copyN,
    removedTarget := false, renamed := false }

/-- Response handling of ResumeDownload (net.go 624-694), from the
httpClient.Do call onward; req is the request being performed. A status
other than 206, 416, 412, 304 closes the body and returns an error with no
copy. 412 deletes both artifacts and fails; 304 deletes both artifacts and
succeeds with 0 bytes. Otherwise the response ETag is written beside the
partial file and the body copied into it; a copy or close failure returns
the copied count with the partial state preserved; success removes the
target, renames the partial file over it and deletes the ETag file. -/
def handleResumeResponse (req : HttpRequest) (env : DownloadEnv) : DownloadRun :=
  if env.doErr then
    { request := some req, n := 0, etag := "", isErr := true, fx := noFx }
  else if env.statusCode ≠ 206 ∧ env.statusCode ≠ 416 ∧
      env.statusCode ≠ 412 ∧ env.statusCode ≠ 304 then
    { request := some req, n := 0, etag := "", isErr := true, fx := noFx }
  else if env.statusCode = 412 then
    { request := some req, n := 0, etag := "", isErr := true, fx := removeBothFx }
  else if env.statusCode = 304 then
    { request := some req, n := 0, etag := env.responseETag, isErr := false, fx := removeBothFx }
  else if env.copyErr then
    { request := some req, n := (env.copyN : Int), etag := "", isErr := true, fx := copyFx env }
  else if env.closeErr then
    { request := some req, n := (env.copyN : Int), etag := "", isErr := true, fx := copyFx env }
  else if env.renameErr then
    { request := some req, n := (env.copyN : Int), etag := "", isErr := true,
      fx := { copyFx env with removedTarget := true } }
  else
    { request := some req, n := (env.copyN : Int), etag := env.responseETag, isErr := false,
      fx := { copyFx env with removedTarget := true, renamed := true, removedPartETag := true } }

/-- ResumeDownload (net.go 551-694), embedded in source order. The partial
ETag is read only when the partial file size is positive; a failed read
deletes both artifacts and fails before any request is built; otherwise the
request is built per buildResumeRequest and performed, and the response is
handled by handleResumeResponse. -/
def ResumeDownload (env : DownloadEnv) (ifNoneMatchETag : String) : DownloadRun :=
  if env.openErr then
    { request := none, n := 0, etag := "", isErr := true, fx := noFx }
  else if env.statErr then
    { request := none, n := 0, etag := "", isErr := true, fx := noFx }
  else if 0 < env.size ∧ env.etagReadErr = true then
    { request := none, n := 0, etag := "", isErr := true, fx := removeBothFx }
  else if env.newRequestErr then
    { request := none, n := 0, etag := "", isErr := true, fx := noFx }
  else
    handleResumeResponse
      (buildResumeRequest env.size
        (if 0 < env.size then some env.etagContents else none) ifNoneMatchETag) env

/-! ## Service supervisor (psiphon/server/services.go, RunServices, lines 41-146)

Two aspects are embedded. First, the error inbox: services.go line 63 is
errors := make(chan error), i.e. a Go channel with NO capacity argument,
which is unbuffered (capacity 0); the failing workers post with
select case errors <- err default, a non-blocking send. A non-blocking send
on a Go channel succeeds when a receiver is currently blocked on the
channel, or when the buffer has free space; otherwise the default case runs
and the value is dropped.

Second, the wait-group discipline of the three workers: the load-monitor
goroutine (lines 73-85) calls waitGroup.Done() as its FIRST statement, not
deferred, while the web-server goroutine (line 91) and the tunnel-server
goroutine (line 104) both defer waitGroup.Done() to their exit. -/

structure GoChan where
  capacity : Nat
  buffered : List Nat
  receiverReady : Bool
deriving DecidableEq

/-- The supervisor error inbox of services.go line 63: make(chan error)
with no capacity argument, hence capacity 0, initially empty, with no
receiver blocked on it (the supervisor has not reached its select loop). -/
def makeErrorsChan : GoChan :=
  { capacity := 0, buffered := [], receiverReady := false }

/-- The non-blocking send select case ch <- v default (services.go 93-96
and 106-109): succeeds by direct handoff when a receiver is blocked on the
channel, or by buffering when there is buffer space; otherwise the default
case runs and the send reports failure (the error is dropped). -/
def trySend (ch : GoChan) (v : Nat) : GoChan × Bool :=
  if ch.receiverReady then
    ({ ch with receiverReady := false }, true)
  else if ch.buffered.length < ch.capacity then
    ({ ch with buffered := ch.buffered ++ [v] }, true)
  else
    (ch, false)

inductive DonePlacement
  | atStart
  | deferredAtExit
deriving DecidableEq

structure Worker where
  name : String
  donePlacement : DonePlacement
deriving DecidableEq

/-- The load-monitor worker (services.go 71-86): waitGroup.Add(1) then a
goroutine whose first statement, line 74, is waitGroup.Done() with no
defer. -/
def loadMonitorWorker : Worker :=
  { name := "loadMonitor", donePlacement := DonePlacement.atStart }

/-- The web API server worker (services.go 88-98): the goroutine begins
with defer waitGroup.Done(), so the decrement fires at its exit. -/
def webServerWorker : Worker :=
  { name := "webServer", donePlacement := DonePlacement.deferredAtExit }

/-- The tunnel server worker (services.go 102-110): the goroutine begins
with defer waitGroup.Done(), so the decrement fires at its exit. -/
def tunnelServerWorker : Worker :=
  { name := "tunnelServer", donePlacement := DonePlacement.deferredAtExit }

/-- The workers RunServices spawns for a given config: the load monitor
when RunLoadMonitor(), the web server when RunWebServer(), and always the
tunnel server. -/
def spawnedWorkers (runLoadMonitor runWebServer : Bool) : List Worker :=
  (if runLoadMonitor then [loadMonitorWorker] else []) ++
    (if runWebServer then [webServerWorker] else []) ++ [tunnelServerWorker]

/-- Atomic wait-group-relevant events of one RunServices execution with all
three workers configured. addX is the waitGroup.Add(1) on the main
goroutine before spawning X; loadMonitorDone is the undeferred
waitGroup.Done() at the start of the load-monitor goroutine (line 74);
loadMonitorExit is that goroutine returning; webServerExit and
tunnelServerExit are those goroutines returning, at which point their
deferred waitGroup.Done() fires. -/
inductive SvcEvent
  | addLoadMonitor
  | loadMonitorDone
  | loadMonitorExit
  | addWebServer
  | webServerExit
  | addTunnelServer
  | tunnelServerExit
deriving DecidableEq

/-- Contribution of each event to the wait-group counter. -/
def wgDelta : SvcEvent → Int
  | SvcEvent.addLoadMonitor => 1
  | SvcEvent.loadMonitorDone => -1
  | SvcEvent.loadMonitorExit => 0
  | SvcEvent.addWebServer => 1
  | SvcEvent.webServerExit => -1
  | SvcEvent.addTunnelServer => 1
  | SvcEvent.tunnelServerExit => -1

/-- Wait-group counter after a trace of events. -/
def wgAfterTrace (es : List SvcEvent) : Int :=
  es.foldl (fun acc e => acc + wgDelta e) 0

/-- b does not occur before a in the trace: every event is required to
respect the program order of its goroutine and of the spawning main
goroutine. An absent b is vacuously fine; a present b requires a present a
at a smaller index. -/
def eventOrderOk (es : List SvcEvent) (a b : SvcEvent) : Bool :=
  match es.findIdx? (fun x => x == a), es.findIdx? (fun x => x == b) with
  | some i, some j => decide (i < j)
  | _, none => true
  | none, some _ => false

/-- Program-order validity of a trace: per-goroutine statement order and
the spawn order of the main goroutine (Add(1) precedes the spawned
goroutine events; load monitor is spawned before web server before
tunnel server, services.go 71-110). -/
def validSvcTrace (es : List SvcEvent) : Bool :=
  es.Nodup &&
  eventOrderOk es SvcEvent.addLoadMonitor SvcEvent.loadMonitorDone &&
  eventOrderOk es SvcEvent.loadMonitorDone SvcEvent.loadMonitorExit &&
  eventOrderOk es SvcEvent.addWebServer SvcEvent.webServerExit &&
  eventOrderOk es SvcEvent.addTunnelServer SvcEvent.tunnelServerExit &&
  eventOrderOk es SvcEvent.addLoadMonitor SvcEvent.addWebServer &&
  eventOrderOk es SvcEvent.addWebServer SvcEvent.addTunnelServer

/-- A program-order-valid interleaving in which the supervisor has closed
shutdownBroadcast, the web and tunnel workers have exited, and the load
monitor has executed only its initial waitGroup.Done() and is still
running. -/
def lmDemoTrace : List SvcEvent :=
  [SvcEvent.addLoadMonitor, SvcEvent.loadMonitorDone, SvcEvent.addWebServer,
   SvcEvent.addTunnelServer, SvcEvent.webServerExit, SvcEvent.tunnelServerExit]

/-! ## Theorems -/

/-- C3: the claim states that CloseOldest on an empty LRUConns is a no-op
that returns normally without invoking close and without a failure or
panic. The code (net.go 270-282) evaluates the type assertion
oldest.Value.(net.Conn) before the nil check on oldest, so on the empty
list — here a freshly constructed NewLRUConns — the call dereferences a nil
element and panics, modelled as the none outcome; on a non-empty list it
behaves as specified (contrast conjunct). -/
theorem close_oldest_empty_faults :
    LRUConns.CloseOldest NewLRUConns = none ∧
    LRUConns.CloseOldest (LRUConns.Add NewLRUConns 7) = some (NewLRUConns, 7) := by
  constructor
  · rfl
  · rfl

/-- C4: the claim states that a Read arriving while limitingReads is 0
whose subtraction leaves the unmetered counter positive subtracts
len(buffer) exactly once and performs the I/O through the raw wrapped
handle. Evaluating the embedded code on the S3 scenario — a ThrottledConn
with unmetered budget 1000 and rate 100 in each direction, one Read with a
400-byte buffer — shows the call instead recurses into ThrottledConn.Read,
subtracts 400 three times (counter 1000 to -200), flips limitingReads, and
performs the I/O through the token-bucket rate limiter, never through the
raw conn; the symmetric Write evaluation is conjoined. -/
theorem throttled_read_retry_burns_budget :
    ThrottledConn.Read 10 (NewThrottledConn 1000 100 1000 100) 400 =
      some ({ unlimitedReadBytes := -200, limitingReads := true,
              limitedReader := ReaderKind.rateLimiter, unlimitedWriteBytes := 1000,
              limitingWrites := false, limitedWriter := ReaderKind.rateLimiter },
            ReaderKind.rateLimiter) ∧
    ThrottledConn.Write 10 (NewThrottledConn 1000 100 1000 100) 400 =
      some ({ unlimitedReadBytes := 1000, limitingReads := false,
              limitedReader := ReaderKind.rateLimiter, unlimitedWriteBytes := -200,
              limitingWrites := true, limitedWriter := ReaderKind.rateLimiter },
            ReaderKind.rateLimiter) := by
  constructor
  · rfl
  · rfl

/-- C1 counterexample: the claim states the error inbox is allocated with
capacity 1 and that the first failing worker posts its error successfully
regardless of what the supervisor is doing. The inbox allocated at
services.go line 63 is make(chan error), an unbuffered channel: its
capacity is 0, and a first non-blocking post made while the supervisor is
not blocked on the inbox (receiverReady = false, the allocation state) is
dropped even though the buffer is empty and no other worker has reported. -/
theorem errors_inbox_capacity_counterexample :
    makeErrorsChan.capacity = 0 ∧ makeErrorsChan.capacity ≠ 1 ∧
    makeErrorsChan.buffered = [] ∧ (trySend makeErrorsChan 1).2 = false := by
  refine ⟨rfl, by decide, rfl, rfl⟩

/-- C1 (amended): the error inbox is unbuffered, so the single
non-blocking post of a failing worker is delivered exactly when the supervisor is at that
moment blocked receiving on the inbox, and is dropped otherwise — including
a first error posted while the supervisor is busy. -/
theorem errors_inbox_unbuffered_delivery (ch : GoChan) (v : Nat)
    (h : ch.capacity = 0) : (trySend ch v).2 = ch.receiverReady := by
  unfold trySend
  cases hr : ch.receiverReady with
  | false => simp [hr, h]
  | true => simp [hr]

/-- Witness for the amended C1 theorem at the supervisor inbox itself. -/
theorem errors_inbox_unbuffered_delivery_witness :
    (trySend makeErrorsChan 1).2 = makeErrorsChan.receiverReady :=
  errors_inbox_unbuffered_delivery makeErrorsChan 1 rfl

/-- C2: the claim states every spawned worker decrements the wait group
only upon its exit, so that RunServices returns only once all worker
goroutines have returned. In the code the load-monitor goroutine calls
waitGroup.Done() as its first statement (services.go line 74, not
deferred): with the load monitor configured the spawned workers do not all
defer the decrement, and lmDemoTrace is a program-order-valid interleaving
in which the wait-group counter has reached 0 — so waitGroup.Wait()
returns and with it RunServices — while the load-monitor goroutine has not
exited. -/
theorem load_monitor_done_at_start :
    loadMonitorWorker.donePlacement = DonePlacement.atStart ∧
    (spawnedWorkers true true).all
      (fun w => w.donePlacement == DonePlacement.deferredAtExit) = false ∧
    validSvcTrace lmDemoTrace = true ∧
    wgAfterTrace lmDemoTrace = 0 ∧
    lmDemoTrace.contains SvcEvent.loadMonitorExit = false := by
  refine ⟨rfl, by decide, by decide, by decide, by decide⟩

/-- C9: on every successful Write of an ActivityMonitoredConn with
activeOnWrite false, lastActivityTime is unchanged and no read deadline is
set on the wrapped conn, while the LRU entry is touched exactly when one is
present; with activeOnWrite true the write stores now into
lastActivityTime and, when the inactivity timeout is positive, sets the
read deadline to now plus the timeout, again touching the LRU entry exactly
when present. -/
theorem activity_monitored_write_effects (conn : ActivityMonitoredConn)
    (now : Int) (n : Nat) :
    (conn.activeOnWrite = false →
      (conn.Write now n false).conn.lastActivityTime = conn.lastActivityTime ∧
      (conn.Write now n false).fx.readDeadlineSet = none ∧
      (conn.Write now n false).fx.lruTouched = conn.hasLruEntry) ∧
    (conn.activeOnWrite = true →
      (conn.Write now n false).conn.lastActivityTime = now ∧
      (0 < conn.inactivityTimeout →
        (conn.Write now n false).fx.readDeadlineSet = some (now + conn.inactivityTimeout)) ∧
      (conn.Write now n false).fx.lruTouched = conn.hasLruEntry) := by
  cases ha : conn.activeOnWrite <;>
    by_cases ht : 0 < conn.inactivityTimeout <;>
      simp [ActivityMonitoredConn.Write, ha, ht]

/-- Witness for C9 at a concrete connection: activeOnWrite false, timeout
200, an LRU entry present, a successful 3-byte write at now = 50. -/
theorem activity_monitored_write_effects_witness :
    ((ActivityMonitoredConn.Write
        { inactivityTimeout := 200, activeOnWrite := false, startTime := 0,
          lastActivityTime := 10, hasLruEntry := true } 50 3 false).conn.lastActivityTime = 10 ∧
      (ActivityMonitoredConn.Write
        { inactivityTimeout := 200, activeOnWrite := false, startTime := 0,
          lastActivityTime := 10, hasLruEntry := true } 50 3 false).fx.readDeadlineSet = none ∧
      (ActivityMonitoredConn.Write
        { inactivityTimeout := 200, activeOnWrite := false, startTime := 0,
          lastActivityTime := 10, hasLruEntry := true } 50 3 false).fx.lruTouched = true) :=
  (activity_monitored_write_effects
    { inactivityTimeout := 200, activeOnWrite := false, startTime := 0,
      lastActivityTime := 10, hasLruEntry := true } 50 3).1 rfl

/-- Helper: a closed and empty registry stays closed and empty across any
sequence of operations that contains no Reset. -/
theorem conns_closed_empty_runOps (ops : List ConnsOp) :
    ∀ s : Conns, s.isClosed = true → s.conns = [] → ConnsOp.reset ∉ ops →
      (Conns.runOps s ops).isClosed = true ∧ (Conns.runOps s ops).conns = [] := by
  induction ops with
  | nil =>
    intro s h1 h2 _
    exact ⟨h1, h2⟩
  | cons op ops ih =>
    intro s h1 h2 hr
    have hop : op ≠ ConnsOp.reset := fun he => hr (he ▸ List.mem_cons_self _ _)
    have hr2 : ConnsOp.reset ∉ ops := fun hm => hr (List.mem_cons_of_mem _ hm)
    cases op with
    | add c =>
      simp only [Conns.runOps, Conns.applyOp]
      have hadd : (Conns.Add s c).1 = s := by simp [Conns.Add, h1]
      rw [hadd]
      exact ih s h1 h2 hr2
    | remove c =>
      simp only [Conns.runOps, Conns.applyOp]
      refine ih _ ?_ ?_ hr2
      · simpa [Conns.Remove] using h1
      · simp [Conns.Remove, h2]
    | closeAll =>
      simp only [Conns.runOps, Conns.applyOp]
      exact ih _ rfl rfl hr2
    | reset => exact absurd rfl hop

/-- C5: connection-registry closure invariant. After CloseAll has run and
until a Reset, the registry is closed and its set of registered connections
stays empty, and every subsequent Add returns false; moreover Add returns
true exactly when the registry is not closed, and CloseAll invokes Close on
every currently-registered handle and then empties the mapping. -/
theorem conns_registry_closure (s0 : Conns) (post : List ConnsOp)
    (h : ConnsOp.reset ∉ post) :
    ((Conns.runOps (Conns.CloseAll s0).1 post).isClosed = true ∧
      (Conns.runOps (Conns.CloseAll s0).1 post).conns = []) ∧
    (∀ pre c suf, post = pre ++ ConnsOp.add c :: suf →
      (Conns.Add (Conns.runOps (Conns.CloseAll s0).1 pre) c).2 = false) ∧
    (∀ s : Conns, ∀ c : Nat, (Conns.Add s c).2 = !s.isClosed) ∧
    (∀ s : Conns, (Conns.CloseAll s).2 = s.conns ∧ (Conns.CloseAll s).1.conns = [] ∧
      (Conns.CloseAll s).1.isClosed = true) := by
  refine ⟨conns_closed_empty_runOps post _ rfl rfl h, ?_, ?_, ?_⟩
  · intro pre c suf hps
    have hpre : ConnsOp.reset ∉ pre := fun hm => h (hps ▸ List.mem_append_left _ hm)
    have hinv := conns_closed_empty_runOps pre (Conns.CloseAll s0).1 rfl rfl hpre
    simp [Conns.Add, hinv.1]
  · intro s c
    cases hs : s.isClosed <;> simp [Conns.Add, hs]
  · intro s
    exact ⟨rfl, rfl, rfl⟩

/-- Witness for C5: a registry holding connections 1 and 2 is closed, then
an Add and a Remove are issued; the registry stays closed and empty. -/
theorem conns_registry_closure_witness :
    (Conns.runOps (Conns.CloseAll { isClosed := false, conns := [1, 2] }).1
        [ConnsOp.add 5, ConnsOp.remove 1]).isClosed = true ∧
    (Conns.runOps (Conns.CloseAll { isClosed := false, conns := [1, 2] }).1
        [ConnsOp.add 5, ConnsOp.remove 1]).conns = [] :=
  (conns_registry_closure { isClosed := false, conns := [1, 2] }
    [ConnsOp.add 5, ConnsOp.remove 1] (by decide)).1

/-- Helper: with at least one byte in the buffer, Read returns within fuel
exceeding the value of the unmetered counter, because every retry strictly
decreases the counter by the buffer length. -/
theorem throttled_read_terminates_aux :
    ∀ fuel : Nat, ∀ conn : ThrottledConn, ∀ n : Nat, 1 ≤ n →
      conn.unlimitedReadBytes.toNat < fuel →
      (ThrottledConn.Read fuel conn n).isSome = true := by
  intro fuel
  induction fuel with
  | zero =>
    intro conn n _ h2
    exact absurd h2 (Nat.not_lt_zero _)
  | succ f ih =>
    intro conn n h1 h2
    simp only [ThrottledConn.Read]
    by_cases hl : conn.limitingReads = false
    · rw [if_pos hl]
      by_cases hc : conn.unlimitedReadBytes - (n : Int) ≤ 0
      · rw [if_pos hc]
        rfl
      · rw [if_neg hc]
        refine ih _ n h1 ?_
        simp only []
        omega
    · rw [if_neg hl]
      rfl

/-- Helper: the symmetric termination bound for Write. -/
theorem throttled_write_terminates_aux :
    ∀ fuel : Nat, ∀ conn : ThrottledConn, ∀ n : Nat, 1 ≤ n →
      conn.unlimitedWriteBytes.toNat < fuel →
      (ThrottledConn.Write fuel conn n).isSome = true := by
  intro fuel
  induction fuel with
  | zero =>
    intro conn n _ h2
    exact absurd h2 (Nat.not_lt_zero _)
  | succ f ih =>
    intro conn n h1 h2
    simp only [ThrottledConn.Write]
    by_cases hl : conn.limitingWrites = false
    · rw [if_pos hl]
      by_cases hc : conn.unlimitedWriteBytes - (n : Int) ≤ 0
      · rw [if_pos hc]
        rfl
      · rw [if_neg hc]
        refine ih _ n h1 ?_
        simp only []
        omega
    · rw [if_neg hl]
      rfl

/-- C10: every ThrottledConn.Read or ThrottledConn.Write call on a
non-empty buffer terminates: each recursive retry strictly decreases the
unmetered byte counter by the buffer length (at least 1), so fuel exceeding
the counter value suffices for the call to return. -/
theorem throttled_io_terminates (conn : ThrottledConn) (n : Nat) (h : 1 ≤ n) :
    (ThrottledConn.Read (conn.unlimitedReadBytes.toNat + 1) conn n).isSome = true ∧
    (ThrottledConn.Write (conn.unlimitedWriteBytes.toNat + 1) conn n).isSome = true :=
  ⟨throttled_read_terminates_aux _ conn n h (Nat.lt_succ_self _),
   throttled_write_terminates_aux _ conn n h (Nat.lt_succ_self _)⟩

/-- Witness for C10 at the S3 configuration and a 400-byte buffer. -/
theorem throttled_io_terminates_witness :
    1 ≤ 400 ∧
    ((ThrottledConn.Read ((NewThrottledConn 1000 100 1000 100).unlimitedReadBytes.toNat + 1)
        (NewThrottledConn 1000 100 1000 100) 400).isSome = true ∧
      (ThrottledConn.Write ((NewThrottledConn 1000 100 1000 100).unlimitedWriteBytes.toNat + 1)
        (NewThrottledConn 1000 100 1000 100) 400).isSome = true) :=
  ⟨by decide, throttled_io_terminates (NewThrottledConn 1000 100 1000 100) 400 (by decide)⟩

/-- Helper: a returning Read call never changes the configured limited
reader, reports it as the reader that performed the I/O, and, when the
limiting flag is already set on entry, leaves the state untouched with the
flag still set. -/
theorem throttled_read_invariant :
    ∀ fuel : Nat, ∀ conn : ThrottledConn, ∀ n : Nat, ∀ c2 : ThrottledConn, ∀ k : ReaderKind,
      ThrottledConn.Read fuel conn n = some (c2, k) →
      c2.limitedReader = conn.limitedReader ∧ k = conn.limitedReader ∧
        (conn.limitingReads = true → c2 = conn) := by
  intro fuel
  induction fuel with
  | zero =>
    intro conn n c2 k h
    simp [ThrottledConn.Read] at h
  | succ f ih =>
    intro conn n c2 k h
    simp only [ThrottledConn.Read] at h
    by_cases hl : conn.limitingReads = false
    · rw [if_pos hl] at h
      by_cases hc : conn.unlimitedReadBytes - (n : Int) ≤ 0
      · rw [if_pos hc] at h
        simp only [Option.some.injEq, Prod.mk.injEq] at h
        obtain ⟨hc2, hk⟩ := h
        refine ⟨by rw [← hc2], hk.symm, fun ht => absurd ht (by simp [hl])⟩
      · rw [if_neg hc] at h
        have := ih _ n c2 k h
        exact ⟨this.1, this.2.1, fun ht => absurd ht (by simp [hl])⟩
    · rw [if_neg hl] at h
      simp only [Option.some.injEq, Prod.mk.injEq] at h
      obtain ⟨hc2, hk⟩ := h
      exact ⟨by rw [← hc2], hk.symm, fun _ => hc2.symm⟩

/-- Helper: the symmetric invariant for Write. -/
theorem throttled_write_invariant :
    ∀ fuel : Nat, ∀ conn : ThrottledConn, ∀ n : Nat, ∀ c2 : ThrottledConn, ∀ k : ReaderKind,
      ThrottledConn.Write fuel conn n = some (c2, k) →
      c2.limitedWriter = conn.limitedWriter ∧ k = conn.limitedWriter ∧
        (conn.limitingWrites = true → c2 = conn) := by
  intro fuel
  induction fuel with
  | zero =>
    intro conn n c2 k h
    simp [ThrottledConn.Write] at h
  | succ f ih =>
    intro conn n c2 k h
    simp only [ThrottledConn.Write] at h
    by_cases hl : conn.limitingWrites = false
    · rw [if_pos hl] at h
      by_cases hc : conn.unlimitedWriteBytes - (n : Int) ≤ 0
      · rw [if_pos hc] at h
        simp only [Option.some.injEq, Prod.mk.injEq] at h
        obtain ⟨hc2, hk⟩ := h
        refine ⟨by rw [← hc2], hk.symm, fun ht => absurd ht (by simp [hl])⟩
      · rw [if_neg hc] at h
        have := ih _ n c2 k h
        exact ⟨this.1, this.2.1, fun ht => absurd ht (by simp [hl])⟩
    · rw [if_neg hl] at h
      simp only [Option.some.injEq, Prod.mk.injEq] at h
      obtain ⟨hc2, hk⟩ := h
      exact ⟨by rw [← hc2], hk.symm, fun _ => hc2.symm⟩

/-- Helper: across a whole sequence of Read calls entered with the limiting
flag set, the flag stays set and every call performs its I/O through the
configured limited reader. -/
theorem throttled_runreads_limited (ns : List Nat) :
    ∀ fuel : Nat, ∀ conn : ThrottledConn, ∀ c2 : ThrottledConn, ∀ ks : List ReaderKind,
      ThrottledConn.runReads fuel conn ns = some (c2, ks) →
      conn.limitingReads = true →
      c2 = conn ∧ ks.all (fun k => k == conn.limitedReader) = true := by
  induction ns with
  | nil =>
    intro fuel conn c2 ks h _
    simp only [ThrottledConn.runReads, Option.some.injEq, Prod.mk.injEq] at h
    obtain ⟨h1, h2⟩ := h
    simp [← h1, ← h2]
  | cons n ns ih =>
    intro fuel conn c2 ks h hl
    simp only [ThrottledConn.runReads] at h
    cases h1 : ThrottledConn.Read fuel conn n with
    | none =>
      rw [h1] at h
      exact absurd h (by simp)
    | some p =>
      obtain ⟨cmid, k⟩ := p
      rw [h1] at h
      dsimp only at h
      cases h2 : ThrottledConn.runReads fuel cmid ns with
      | none =>
        rw [h2] at h
        exact absurd h (by simp)
      | some q =>
        obtain ⟨cfin, ks2⟩ := q
        rw [h2] at h
        dsimp only at h
        simp only [Option.some.injEq, Prod.mk.injEq] at h
        obtain ⟨hfin, hks⟩ := h
        have hinv := throttled_read_invariant fuel conn n cmid k h1
        have hmid : cmid = conn := hinv.2.2 hl
        have hrest := ih fuel cmid cfin ks2 h2 (by rw [hmid]; exact hl)
        subst hfin
        refine ⟨by rw [hrest.1, hmid], ?_⟩
        rw [← hks]
        simp only [List.all_cons, Bool.and_eq_true]
        constructor
        · simp [hinv.2.1]
        · have := hrest.2
          rw [hmid] at this
          exact this

/-- Helper: the symmetric sequence invariant for Write. -/
theorem throttled_runwrites_limited (ns : List Nat) :
    ∀ fuel : Nat, ∀ conn : ThrottledConn, ∀ c2 : ThrottledConn, ∀ ks : List ReaderKind,
      ThrottledConn.runWrites fuel conn ns = some (c2, ks) →
      conn.limitingWrites = true →
      c2 = conn ∧ ks.all (fun k => k == conn.limitedWriter) = true := by
  induction ns with
  | nil =>
    intro fuel conn c2 ks h _
    simp only [ThrottledConn.runWrites, Option.some.injEq, Prod.mk.injEq] at h
    obtain ⟨h1, h2⟩ := h
    simp [← h1, ← h2]
  | cons n ns ih =>
    intro fuel conn c2 ks h hl
    simp only [ThrottledConn.runWrites] at h
    cases h1 : ThrottledConn.Write fuel conn n with
    | none =>
      rw [h1] at h
      exact absurd h (by simp)
    | some p =>
      obtain ⟨cmid, k⟩ := p
      rw [h1] at h
      dsimp only at h
      cases h2 : ThrottledConn.runWrites fuel cmid ns with
      | none =>
        rw [h2] at h
        exact absurd h (by simp)
      | some q =>
        obtain ⟨cfin, ks2⟩ := q
        rw [h2] at h
        dsimp only at h
        simp only [Option.some.injEq, Prod.mk.injEq] at h
        obtain ⟨hfin, hks⟩ := h
        have hinv := throttled_write_invariant fuel conn n cmid k h1
        have hmid : cmid = conn := hinv.2.2 hl
        have hrest := ih fuel cmid cfin ks2 h2 (by rw [hmid]; exact hl)
        subst hfin
        refine ⟨by rw [hrest.1, hmid], ?_⟩
        rw [← hks]
        simp only [List.all_cons, Bool.and_eq_true]
        constructor
        · simp [hinv.2.1]
        · have := hrest.2
          rw [hmid] at this
          exact this

/-- C6: for a ThrottledConn whose direction is configured with a non-zero
rate, the constructor selects the token-bucket limiter for that direction;
the limiting flag transition is one-way — any returning Read (resp. Write)
entered with the flag set leaves it set — and once the flag is set, every
subsequent Read (resp. Write) in that direction keeps the flag set and
performs its I/O through the token-bucket limiter, never through the raw
unmetered path. -/
theorem throttled_limiting_one_way (ur r uw w : Int) (hr : r ≠ 0) (hw : w ≠ 0) :
    (NewThrottledConn ur r uw w).limitedReader = ReaderKind.rateLimiter ∧
    (NewThrottledConn ur r uw w).limitedWriter = ReaderKind.rateLimiter ∧
    (∀ fuel n : Nat, ∀ conn c2 : ThrottledConn, ∀ k : ReaderKind,
      ThrottledConn.Read fuel conn n = some (c2, k) →
      conn.limitingReads = true → c2.limitingReads = true) ∧
    (∀ fuel n : Nat, ∀ conn c2 : ThrottledConn, ∀ k : ReaderKind,
      ThrottledConn.Write fuel conn n = some (c2, k) →
      conn.limitingWrites = true → c2.limitingWrites = true) ∧
    (∀ fuel : Nat, ∀ ns : List Nat, ∀ conn c2 : ThrottledConn, ∀ ks : List ReaderKind,
      conn.limitedReader = ReaderKind.rateLimiter → conn.limitingReads = true →
      ThrottledConn.runReads fuel conn ns = some (c2, ks) →
      c2.limitingReads = true ∧ ks.all (fun k => k == ReaderKind.rateLimiter) = true) ∧
    (∀ fuel : Nat, ∀ ns : List Nat, ∀ conn c2 : ThrottledConn, ∀ ks : List ReaderKind,
      conn.limitedWriter = ReaderKind.rateLimiter → conn.limitingWrites = true →
      ThrottledConn.runWrites fuel conn ns = some (c2, ks) →
      c2.limitingWrites = true ∧ ks.all (fun k => k == ReaderKind.rateLimiter) = true) := by
  refine ⟨by simp [NewThrottledConn, hr], by simp [NewThrottledConn, hw], ?_, ?_, ?_, ?_⟩
  · intro fuel n conn c2 k h hl
    rw [(throttled_read_invariant fuel conn n c2 k h).2.2 hl]
    exact hl
  · intro fuel n conn c2 k h hl
    rw [(throttled_write_invariant fuel conn n c2 k h).2.2 hl]
    exact hl
  · intro fuel ns conn c2 ks hrk hl h
    have hrun := throttled_runreads_limited ns fuel conn c2 ks h hl
    refine ⟨by rw [hrun.1]; exact hl, ?_⟩
    have := hrun.2
    rw [hrk] at this
    exact this
  · intro fuel ns conn c2 ks hwk hl h
    have hrun := throttled_runwrites_limited ns fuel conn c2 ks h hl
    refine ⟨by rw [hrun.1]; exact hl, ?_⟩
    have := hrun.2
    rw [hwk] at this
    exact this

/-- Witness for C6: a ThrottledConn in the limiting state (the state the S3
scenario reaches after its first read) keeps the flag across two further
400-byte reads and both go through the token bucket. -/
theorem throttled_limiting_one_way_witness :
    ({ unlimitedReadBytes := -200, limitingReads := true,
       limitedReader := ReaderKind.rateLimiter, unlimitedWriteBytes := 1000,
       limitingWrites := false, limitedWriter := ReaderKind.rateLimiter } :
        ThrottledConn).limitingReads = true ∧
    ([ReaderKind.rateLimiter, ReaderKind.rateLimiter].all
      (fun k => k == ReaderKind.rateLimiter)) = true :=
  (throttled_limiting_one_way 1000 100 1000 100 (by decide) (by decide)).2.2.2.2.1
    5 [400, 400]
    { unlimitedReadBytes := -200, limitingReads := true,
      limitedReader := ReaderKind.rateLimiter, unlimitedWriteBytes := 1000,
      limitingWrites := false, limitedWriter := ReaderKind.rateLimiter }
    { unlimitedReadBytes := -200, limitingReads := true,
      limitedReader := ReaderKind.rateLimiter, unlimitedWriteBytes := 1000,
      limitingWrites := false, limitedWriter := ReaderKind.rateLimiter }
    [ReaderKind.rateLimiter, ReaderKind.rateLimiter] rfl rfl rfl


/-- Helper: every branch of the response handler reports the performed
request. -/
theorem handleResumeResponse_request (req : HttpRequest) (env : DownloadEnv) :
    (handleResumeResponse req env).request = some req := by
  unfold handleResumeResponse
  split
  · rfl
  split
  · rfl
  split
  · rfl
  split
  · rfl
  split
  · rfl
  split
  · rfl
  split
  · rfl
  · rfl

/-- Helper: when ResumeDownload performs a request at all, that request is
exactly the one built by buildResumeRequest from the partial-file size, the
loaded partial ETag (present exactly when the size is positive) and the
If-None-Match hint. -/
theorem resume_download_request_shape (env : DownloadEnv) (inm : String) (req : HttpRequest)
    (h : (ResumeDownload env inm).request = some req) :
    req = buildResumeRequest env.size
      (if 0 < env.size then some env.etagContents else none) inm := by
  unfold ResumeDownload at h
  split at h
  · exact absurd h (by simp)
  split at h
  · exact absurd h (by simp)
  split at h
  · exact absurd h (by simp)
  split at h
  · exact absurd h (by simp)
  · rw [handleResumeResponse_request] at h
    exact (Option.some.inj h).symm

/-- Helper: header properties of the request built at net.go 592-622. -/
theorem buildResumeRequest_headers (size : Nat) (etagContents inm : String) :
    (buildResumeRequest size (if 0 < size then some etagContents else none) inm).rangeHeader =
      "bytes=" ++ toString size ++ "-" ∧
    ((buildResumeRequest size (if 0 < size then some etagContents else none) inm).ifMatch ≠ none ↔
      0 < size) ∧
    (0 < size →
      (buildResumeRequest size (if 0 < size then some etagContents else none) inm).ifMatch =
        some etagContents) ∧
    ((buildResumeRequest size (if 0 < size then some etagContents else none) inm).ifNoneMatch ≠
        none ↔ (size = 0 ∧ inm ≠ "")) ∧
    ¬((buildResumeRequest size (if 0 < size then some etagContents else none) inm).ifMatch ≠
        none ∧
      (buildResumeRequest size (if 0 < size then some etagContents else none) inm).ifNoneMatch ≠
        none) := by
  by_cases hs : 0 < size <;> by_cases hi : inm = "" <;>
    simp [buildResumeRequest, hs, hi] <;> omega

/-- C8: every request ResumeDownload performs carries the Range header
bytes=S- for the current size S of the partial file; it carries If-Match
with the stored partial ETag exactly when S is positive, carries
If-None-Match exactly when S = 0 and a non-empty ifNoneMatchETag hint was
supplied, and never carries both conditional headers. -/
theorem resume_download_request_headers (env : DownloadEnv) (inm : String)
    (req : HttpRequest) (h : (ResumeDownload env inm).request = some req) :
    req.rangeHeader = "bytes=" ++ toString env.size ++ "-" ∧
    (req.ifMatch ≠ none ↔ 0 < env.size) ∧
    (0 < env.size → req.ifMatch = some env.etagContents) ∧
    (req.ifNoneMatch ≠ none ↔ (env.size = 0 ∧ inm ≠ "")) ∧
    ¬(req.ifMatch ≠ none ∧ req.ifNoneMatch ≠ none) := by
  rw [resume_download_request_shape env inm req h]
  exact buildResumeRequest_headers env.size env.etagContents inm

/-- Witness for C8 at a concrete environment: a 3-byte partial file with
stored ETag abc and hint xyz; the performed request carries If-Match and no
If-None-Match. -/
theorem resume_download_request_headers_witness :
    (({ rangeHeader := "bytes=3-", ifMatch := some "abc", ifNoneMatch := none } :
        HttpRequest).ifMatch ≠ none ↔ 0 < (3 : Nat)) ∧
    (({ rangeHeader := "bytes=3-", ifMatch := some "abc", ifNoneMatch := none } :
        HttpRequest).ifNoneMatch ≠ none ↔ ((3 : Nat) = 0 ∧ "xyz" ≠ "")) :=
  ⟨(resume_download_request_headers
      { openErr := false, statErr := false, size := 3, etagReadErr := false,
        etagContents := "abc", newRequestErr := false, doErr := false, statusCode := 206,
        responseETag := "abc", copyN := 7, copyErr := false, closeErr := false,
        renameErr := false } "xyz"
      { rangeHeader := "bytes=3-", ifMatch := some "abc", ifNoneMatch := none }
      (by decide)).2.1,
   (resume_download_request_headers
      { openErr := false, statErr := false, size := 3, etagReadErr := false,
        etagContents := "abc", newRequestErr := false, doErr := false, statusCode := 206,
        responseETag := "abc", copyN := 7, copyErr := false, closeErr := false,
        renameErr := false } "xyz"
      { rangeHeader := "bytes=3-", ifMatch := some "abc", ifNoneMatch := none }
      (by decide)).2.2.2.1⟩

/-- C7: whenever ResumeDownload receives an HTTP response whose status code
is none of 206, 416, 412, 304, it returns an error with byte count 0 and
empty ETag, and no body bytes are copied into the partial file. -/
theorem resume_download_rejects_other_status (env : DownloadEnv) (inm : String)
    (hopen : env.openErr = false) (hstat : env.statErr = false)
    (hetag : ¬(0 < env.size ∧ env.etagReadErr = true))
    (hreq : env.newRequestErr = false) (hdo : env.doErr = false)
    (hsc : env.statusCode ≠ 206 ∧ env.statusCode ≠ 416 ∧
      env.statusCode ≠ 412 ∧ env.statusCode ≠ 304) :
    (ResumeDownload env inm).n = 0 ∧ (ResumeDownload env inm).etag = "" ∧
    (ResumeDownload env inm).isErr = true ∧
    (ResumeDownload env inm).fx.bytesCopied = 0 := by
  unfold ResumeDownload handleResumeResponse
  rw [if_neg (by simp [hopen]), if_neg (by simp [hstat]), if_neg hetag,
    if_neg (by simp [hreq]), if_neg (by simp [hdo]), if_pos hsc]
  exact ⟨rfl, rfl, rfl, rfl⟩

/-- Witness for C7: a 500 response on a fresh download attempt yields the
error return with nothing copied. -/
theorem resume_download_rejects_other_status_witness :
    (ResumeDownload
      { openErr := false, statErr := false, size := 0, etagReadErr := false,
        etagContents := "", newRequestErr := false, doErr := false, statusCode := 500,
        responseETag := "x", copyN := 7, copyErr := false, closeErr := false,
        renameErr := false } "").n = 0 ∧
    (ResumeDownload
      { openErr := false, statErr := false, size := 0, etagReadErr := false,
        etagContents := "", newRequestErr := false, doErr := false, statusCode := 500,
        responseETag := "x", copyN := 7, copyErr := false, closeErr := false,
        renameErr := false } "").etag = "" ∧
    (ResumeDownload
      { openErr := false, statErr := false, size := 0, etagReadErr := false,
        etagContents := "", newRequestErr := false, doErr := false, statusCode := 500,
        responseETag := "x", copyN := 7, copyErr := false, closeErr := false,
        renameErr := false } "").isErr = true ∧
    (ResumeDownload
      { openErr := false, statErr := false, size := 0, etagReadErr := false,
        etagContents := "", newRequestErr := false, doErr := false, statusCode := 500,
        responseETag := "x", copyN := 7, copyErr := false, closeErr := false,
        renameErr := false } "").fx.bytesCopied = 0 :=
  resume_download_rejects_other_status
    { openErr := false, statErr := false, size := 0, etagReadErr := false,
      etagContents := "", newRequestErr := false, doErr := false, statusCode := 500,
      responseETag := "x", copyN := 7, copyErr := false, closeErr := false,
      renameErr := false } "" rfl rfl (by decide) rfl rfl (by decide)
